import Mathlib

/-!
Verification of the `static-subid` range-allocation engine and configuration
pipeline. Machine integers (`uint32_t`) are modelled as `Nat` with explicit
reduction modulo `2^32` exactly where the C code's fixed-width arithmetic
wraps; fallible C functions returning `-1`/`0` with an out-parameter are
modelled as `Option`-returning Lean functions.
-/

namespace StaticSubid

/-- The number of values of `uint32_t`: `UINT32_MAX_VAL + 1 = 2^32`. -/
def U32 : Nat := 4294967296

/-- Embedding of `subid_mode_t` from `static-subid.h`. -/
inductive subid_mode_t where
  | SUBUID
  | SUBGID
deriving DecidableEq, Repr

/-- Embedding of `subid_config_t` from `static-subid.h`: a subordinate-ID
domain `{min_val, max_val, count_val}` together with its mode tag and the
configuration-key strings used by the parser and by error messages. The
numeric fields are `uint32_t` in C, modelled as `Nat`. -/
structure subid_config_t where
  type : subid_mode_t
  key_min : List Char
  min_val : Nat
  key_max : List Char
  max_val : Nat
  key_count : List Char
  count_val : Nat
deriving DecidableEq, Repr

/-- The `space = max_val - min_val + 1` computation of `calc_subid_range`
(range.c line 101), performed in `uint32_t`: subtraction and the increment
both wrap modulo `2^32`. For `min_val, max_val < 2^32` the expression
`(max_val + 2^32 - min_val + 1) % 2^32` is exactly the C value. -/
def subid_space (cfg : subid_config_t) : Nat :=
  (cfg.max_val + U32 - cfg.min_val + 1) % U32

/-- Embedding of `calc_subid_range` from range.c. `none` models the C
function returning `-1` (with `*start_out` left at the `UINT32_MAX_VAL`
sentinel); `some start` models returning `0` with `*start_out = start`.
The NULL-pointer guards of the C function have no counterpart here.

Guard by guard:
* `uid < uid_min` — basic sanity check (line 76);
* `count_val = 0` — zero-count rejection (line 86);
* `count > space` — policy check (line 109);
* strict mode (line 127): `__builtin_mul_overflow(uid_offset, count)`,
  `__builtin_add_overflow(min_val, product)` and
  `__builtin_add_overflow(start_id, count - 1)` each signal exactly when the
  mathematical value reaches `2^32`, then `end_id > max_val` is rejected;
* wrap mode (line 174): `logical_offset` is exact in `uint64_t`, the
  `(uint32_t)` cast of `logical_offset % space` and the final addition each
  reduce modulo `2^32`. -/
def calc_subid_range (uid uid_min : Nat) (cfg : subid_config_t)
    (allow_wrap : Bool) : Option Nat :=
  if uid < uid_min then none
  else if cfg.count_val = 0 then none
  else if cfg.count_val > subid_space cfg then none
  else if allow_wrap = false then
    if U32 ≤ (uid - uid_min) * cfg.count_val then none
    else if U32 ≤ cfg.min_val + (uid - uid_min) * cfg.count_val then none
    else if U32 ≤ cfg.min_val + (uid - uid_min) * cfg.count_val +
        (cfg.count_val - 1) then none
    else if cfg.max_val < cfg.min_val + (uid - uid_min) * cfg.count_val +
        (cfg.count_val - 1) then none
    else some (cfg.min_val + (uid - uid_min) * cfg.count_val)
  else
    some ((cfg.min_val +
      (((uid - uid_min) * cfg.count_val) % subid_space cfg) % U32) % U32)

/-- The default subordinate-UID domain installed by `config_factory`
(config.c lines 476-482). -/
def subuid_default : subid_config_t :=
  { type := subid_mode_t.SUBUID
    key_min := ("SUB_UID_MIN").data
    min_val := 100000
    key_max := ("SUB_UID_MAX").data
    max_val := 600100000
    key_count := ("SUB_UID_COUNT").data
    count_val := 65536 }

/-- A wrap-mode test domain `{min=100000, max=109999, count=3000}` used by
the spec's end-to-end scenario. -/
def subid_small_wrap : subid_config_t :=
  { type := subid_mode_t.SUBUID
    key_min := ("SUB_UID_MIN").data
    min_val := 100000
    key_max := ("SUB_UID_MAX").data
    max_val := 109999
    key_count := ("SUB_UID_COUNT").data
    count_val := 3000 }

/-- The full-`uint32_t` domain `{min=0, max=4294967295}`: its span
`max - min + 1` wraps to `0` in `uint32_t` arithmetic. -/
def subid_full_span_one : subid_config_t :=
  { type := subid_mode_t.SUBUID
    key_min := ("SUB_UID_MIN").data
    min_val := 0
    key_max := ("SUB_UID_MAX").data
    max_val := 4294967295
    key_count := ("SUB_UID_COUNT").data
    count_val := 1 }

/-- The full-`uint32_t` domain with `count = 2^31`, whose strict-mode
interval for offset 1 ends exactly at `UINT32_MAX_VAL`. -/
def subid_full_span_half : subid_config_t :=
  { type := subid_mode_t.SUBUID
    key_min := ("SUB_UID_MIN").data
    min_val := 0
    key_max := ("SUB_UID_MAX").data
    max_val := 4294967295
    key_count := ("SUB_UID_COUNT").data
    count_val := 2147483648 }

/-- Inversion for a successful strict-mode call: the start is exactly
`min_val + (uid - uid_min) * count_val`, every overflow check passed, and
the interval end lies within the domain. -/
theorem calc_subid_range_strict_some {uid uid_min s : Nat}
    {cfg : subid_config_t}
    (h : calc_subid_range uid uid_min cfg false = some s) :
    uid_min ≤ uid ∧ 0 < cfg.count_val ∧
    s = cfg.min_val + (uid - uid_min) * cfg.count_val ∧
    s + (cfg.count_val - 1) ≤ cfg.max_val ∧
    s + (cfg.count_val - 1) < U32 := by
  unfold calc_subid_range at h
  split_ifs at h with h1 h2 h3 h4 h5 h6 h7 h8
  · have hs : s = cfg.min_val + (uid - uid_min) * cfg.count_val :=
      (Option.some_inj.mp h).symm
    subst hs
    exact ⟨Nat.le_of_not_lt h1, Nat.pos_of_ne_zero h2, rfl, by omega, by omega⟩
  · exact absurd rfl h4

/-- Claim C9: the spec's end-to-end scenario. With `uid_min = 1000` and the
default domain `{min=100000, max=600100000, count=65536}` in strict mode,
identifier 1000 yields start 100000 and identifier 1001 yields start 165536;
with the domain `{min=100000, max=109999, count=3000}` in wrap mode, the
identifier at offset 4 from `uid_min` yields start 102000. -/
theorem calc_subid_range_end_to_end_scenario :
    calc_subid_range 1000 1000 subuid_default false = some 100000 ∧
    calc_subid_range 1001 1000 subuid_default false = some 165536 ∧
    calc_subid_range 1004 1000 subid_small_wrap true = some 102000 := by
  refine ⟨by decide, by decide, by decide⟩

/-- Claim C1: in strict mode, for a fixed configuration, allocation is
monotonic and collision-free. Whenever two strict-mode calls for `uid1 < uid2`
both succeed, the second start is at least the first start plus `count_val`,
and for any two distinct identifiers whose calls both succeed the intervals
`[start, start + count - 1]` do not intersect. -/
theorem calc_subid_range_strict_monotone_disjoint
    (cfg : subid_config_t) (uid_min uid1 uid2 s1 s2 : Nat)
    (h1 : calc_subid_range uid1 uid_min cfg false = some s1)
    (h2 : calc_subid_range uid2 uid_min cfg false = some s2) :
    (uid1 < uid2 → s1 + cfg.count_val ≤ s2) ∧
    (uid1 ≠ uid2 → ∀ x : Nat,
      ¬((s1 ≤ x ∧ x ≤ s1 + (cfg.count_val - 1)) ∧
        (s2 ≤ x ∧ x ≤ s2 + (cfg.count_val - 1)))) := by
  obtain ⟨hm1, hc, hs1, he1, _⟩ := calc_subid_range_strict_some h1
  obtain ⟨hm2, _, hs2, he2, _⟩ := calc_subid_range_strict_some h2
  have key : ∀ a b : Nat, uid_min ≤ a → a < b →
      cfg.min_val + (a - uid_min) * cfg.count_val + cfg.count_val ≤
        cfg.min_val + (b - uid_min) * cfg.count_val := by
    intro a b ha hab
    have h3 : a - uid_min + 1 ≤ b - uid_min := by omega
    have h4 : (a - uid_min + 1) * cfg.count_val ≤
        (b - uid_min) * cfg.count_val := Nat.mul_le_mul_right _ h3
    have h5 : (a - uid_min + 1) * cfg.count_val =
        (a - uid_min) * cfg.count_val + cfg.count_val := Nat.succ_mul _ _
    omega
  subst hs1
  subst hs2
  refine ⟨fun hlt => key uid1 uid2 hm1 hlt, fun hne x hx => ?_⟩
  rcases Nat.lt_or_ge uid1 uid2 with hlt | hge
  · have := key uid1 uid2 hm1 hlt
    omega
  · have hlt : uid2 < uid1 := by omega
    have := key uid2 uid1 hm2 hlt
    omega

/-- Witness for C1 at the default configuration: identifiers 1000 and 1001
with `uid_min = 1000` get starts 100000 and 165536, separated by the count. -/
theorem calc_subid_range_strict_monotone_disjoint_witness :
    100000 + subuid_default.count_val ≤ 165536 :=
  (calc_subid_range_strict_monotone_disjoint subuid_default 1000 1000 1001
    100000 165536 (by decide) (by decide)).1 (by decide)

/-- Claim C10: the wrap-mode modulo is never evaluated with a zero divisor.
If an input passes the guards that precede the modulo (`uid ≥ uid_min`,
`count_val ≠ 0`, `count_val ≤ space`) then the `uint32` span `space` is
nonzero; and whenever the span wraps to zero the `count > space` policy
check fails first, so the wrap-mode call returns an error before the
division. -/
theorem calc_subid_range_wrap_space_nonzero
    (uid uid_min : Nat) (cfg : subid_config_t) :
    (uid_min ≤ uid → cfg.count_val ≠ 0 → cfg.count_val ≤ subid_space cfg →
      subid_space cfg ≠ 0) ∧
    (subid_space cfg = 0 → calc_subid_range uid uid_min cfg true = none) := by
  constructor
  · intro _ hc hle
    omega
  · intro hsp
    unfold calc_subid_range
    split_ifs with h1 h2 h3 h4 <;> first | rfl | (exfalso; omega)

/-- Witness for C10 at the full-`uint32` domain, whose span wraps to zero. -/
theorem calc_subid_range_wrap_space_nonzero_witness :
    subid_space subid_full_span_one = 0 ∧
    calc_subid_range 0 0 subid_full_span_one true = none :=
  ⟨by decide,
    (calc_subid_range_wrap_space_nonzero 0 0 subid_full_span_one).2
      (by decide)⟩

/-- Counterexample to claim C3 as stated: with domain
`{min=0, max=4294967295, count=2147483648}` in strict mode, the interval for
offset 1 ends exactly at `UINT32_MAX_VAL` and does not exceed `max_val`, yet
the call fails, because the `uint32` span `max - min + 1` wraps to zero and
the `count > space` policy check rejects before the overflow checks run. -/
theorem calc_subid_range_strict_boundary_cex :
    subid_full_span_half.min_val +
        (1 - 0) * subid_full_span_half.count_val +
        (subid_full_span_half.count_val - 1) = U32 - 1 ∧
    U32 - 1 ≤ subid_full_span_half.max_val ∧
    calc_subid_range 1 0 subid_full_span_half false = none := by
  decide

/-- A strict-mode domain whose last interval ends exactly at
`UINT32_MAX_VAL`: `{min=4294000000, max=4294967295, count=967296}`. -/
def subid_near_max : subid_config_t :=
  { type := subid_mode_t.SUBUID
    key_min := ("SUB_UID_MIN").data
    min_val := 4294000000
    key_max := ("SUB_UID_MAX").data
    max_val := 4294967295
    key_count := ("SUB_UID_COUNT").data
    count_val := 967296 }

/-- Claim C3 (amended): in strict mode, `calc_subid_range` fails whenever
`(uid - uid_min) * count`, `min_val + product`, or `start + count - 1`
would exceed the 32-bit unsigned maximum, and whenever the computed end
exceeds `max_val`; the boundary case where `start + count - 1` equals the
32-bit unsigned maximum (and does not exceed `max_val`) succeeds provided
`min_val > 0` — when `min_val = 0` the `uint32` span wraps to zero and the
`count > space` policy check rejects first. -/
theorem calc_subid_range_strict_overflow_rejection
    (uid uid_min : Nat) (cfg : subid_config_t)
    (huid : uid_min ≤ uid) (hmax : cfg.max_val < U32) :
    ((U32 ≤ (uid - uid_min) * cfg.count_val ∨
      U32 ≤ cfg.min_val + (uid - uid_min) * cfg.count_val ∨
      U32 ≤ cfg.min_val + (uid - uid_min) * cfg.count_val +
        (cfg.count_val - 1) ∨
      cfg.max_val < cfg.min_val + (uid - uid_min) * cfg.count_val +
        (cfg.count_val - 1)) →
      calc_subid_range uid uid_min cfg false = none) ∧
    (0 < cfg.count_val → 0 < cfg.min_val →
      cfg.min_val + (uid - uid_min) * cfg.count_val + (cfg.count_val - 1) =
        U32 - 1 →
      U32 - 1 ≤ cfg.max_val →
      calc_subid_range uid uid_min cfg false =
        some (cfg.min_val + (uid - uid_min) * cfg.count_val)) := by
  constructor
  · intro hdis
    cases hcalc : calc_subid_range uid uid_min cfg false with
    | none => rfl
    | some s =>
      obtain ⟨_, hc, hs, hle, hlt⟩ := calc_subid_range_strict_some hcalc
      subst hs
      rcases hdis with h | h | h | h <;> omega
  · intro hc hmin hend hle
    have hcle : cfg.count_val ≤ U32 - cfg.min_val := by omega
    have hminlt : cfg.min_val < U32 := by omega
    have hsp : subid_space cfg = U32 - cfg.min_val := by
      unfold subid_space
      simp only [U32] at *
      omega
    unfold calc_subid_range
    rw [if_neg (by omega : ¬ uid < uid_min),
      if_neg (by omega : ¬ cfg.count_val = 0),
      if_neg (by rw [hsp]; omega : ¬ cfg.count_val > subid_space cfg),
      if_pos rfl,
      if_neg (by omega :
        ¬ U32 ≤ (uid - uid_min) * cfg.count_val),
      if_neg (by omega :
        ¬ U32 ≤ cfg.min_val + (uid - uid_min) * cfg.count_val),
      if_neg (by omega :
        ¬ U32 ≤ cfg.min_val + (uid - uid_min) * cfg.count_val +
          (cfg.count_val - 1)),
      if_neg (by omega :
        ¬ cfg.max_val < cfg.min_val + (uid - uid_min) * cfg.count_val +
          (cfg.count_val - 1))]

/-- Witness for C3 (amended): the boundary domain
`{min=4294000000, max=4294967295, count=967296}` succeeds at offset 0 with
its interval ending exactly at `UINT32_MAX_VAL`. -/
theorem calc_subid_range_strict_overflow_rejection_witness :
    calc_subid_range 1000 1000 subid_near_max false = some
      (subid_near_max.min_val + (1000 - 1000) * subid_near_max.count_val) :=
  (calc_subid_range_strict_overflow_rejection 1000 1000 subid_near_max
    (by decide) (by decide)).2 (by decide) (by decide) (by decide) (by decide)

/-- Counterexample to claim C4 as stated: the input `uid = uid_min = 5` with
domain `{min=0, max=4294967295, count=1}` satisfies the engine's
preconditions (`uid ≥ uid_min`, `count > 0`,
`count ≤ max_val - min_val + 1`), yet the wrap-mode call fails: the `uint32`
span wraps to zero and the `count > space` policy check rejects. -/
theorem calc_subid_range_wrap_full_span_cex :
    5 ≤ 5 ∧ 0 < subid_full_span_one.count_val ∧
    subid_full_span_one.count_val ≤
      subid_full_span_one.max_val - subid_full_span_one.min_val + 1 ∧
    calc_subid_range 5 5 subid_full_span_one true = none := by
  decide

/-- Claim C4 (amended): in wrap mode, for every input satisfying the
engine's preconditions whose span `max_val - min_val + 1` does not wrap to
zero in `uint32` (i.e. the span is below `2^32`), `calc_subid_range` never
fails: the logical offset `(uid - uid_min) * count` is reduced modulo the
span, and the returned start lies within `[min_val, max_val]`. -/
theorem calc_subid_range_wrap_bounded
    (uid uid_min : Nat) (cfg : subid_config_t)
    (huid : uid_min ≤ uid) (hc : 0 < cfg.count_val)
    (hmm : cfg.min_val ≤ cfg.max_val) (hmaxU : cfg.max_val < U32)
    (hcnt : cfg.count_val ≤ cfg.max_val - cfg.min_val + 1)
    (hspan : cfg.max_val - cfg.min_val + 1 < U32) :
    calc_subid_range uid uid_min cfg true =
      some (cfg.min_val + ((uid - uid_min) * cfg.count_val) %
        (cfg.max_val - cfg.min_val + 1)) ∧
    cfg.min_val ≤ cfg.min_val + ((uid - uid_min) * cfg.count_val) %
        (cfg.max_val - cfg.min_val + 1) ∧
    cfg.min_val + ((uid - uid_min) * cfg.count_val) %
        (cfg.max_val - cfg.min_val + 1) ≤ cfg.max_val := by
  have hsp : subid_space cfg = cfg.max_val - cfg.min_val + 1 := by
    unfold subid_space
    simp only [U32] at *
    omega
  have hr : ((uid - uid_min) * cfg.count_val) %
      (cfg.max_val - cfg.min_val + 1) < cfg.max_val - cfg.min_val + 1 :=
    Nat.mod_lt _ (by omega)
  refine ⟨?_, by omega, by omega⟩
  unfold calc_subid_range
  rw [if_neg (by omega : ¬ uid < uid_min),
    if_neg (by omega : ¬ cfg.count_val = 0),
    if_neg (by rw [hsp]; omega : ¬ cfg.count_val > subid_space cfg),
    if_neg (by decide : ¬ (true = false)), hsp]
  congr 1
  simp only [U32] at *
  omega

/-- Witness for C4 (amended): offset 14 in the wrap domain
`{min=100000, max=109999, count=3000}` wraps to start 102000. -/
theorem calc_subid_range_wrap_bounded_witness :
    calc_subid_range 1014 1000 subid_small_wrap true =
      some (subid_small_wrap.min_val + ((1014 - 1000) *
        subid_small_wrap.count_val) %
        (subid_small_wrap.max_val - subid_small_wrap.min_val + 1)) :=
  (calc_subid_range_wrap_bounded 1014 1000 subid_small_wrap (by decide)
    (by decide) (by decide) (by decide) (by decide) (by decide)).1

/-- The `UINT32_MAX_VAL` constant of `static-subid.h`. -/
def UINT32_MAX_VAL : Nat := 4294967295

/-- C-locale `isspace` on a character code, as applied by the parser to
`(unsigned char)` values: space, `\t`, `\n`, `\v`, `\f`, `\r`. -/
def c_isspace (c : Char) : Bool :=
  decide (c.toNat = 32) || decide (c.toNat = 9) || decide (c.toNat = 10) ||
  decide (c.toNat = 11) || decide (c.toNat = 12) || decide (c.toNat = 13)

/-- C-locale `isdigit` on a character code: `'0'` (48) through `'9'` (57). -/
def c_isdigit (c : Char) : Bool :=
  decide (48 ≤ c.toNat) && decide (c.toNat ≤ 57)

/-- The leading-zero trim loop of `parse_uint32_strict` (validate.c line
379): advance past `'0'` characters as long as another character follows,
so `"0"` itself is kept. -/
def skip_leading_zeros : List Char → List Char
  | c1 :: c2 :: rest =>
    if c1 = '0' then skip_leading_zeros (c2 :: rest) else c1 :: c2 :: rest
  | l => l

/-- Decimal value of a digit string, as accumulated by `strtoull` base 10. -/
def digits_to_nat (l : List Char) : Nat :=
  l.foldl (fun acc c => acc * 10 + (c.toNat - 48)) 0

/-- Embedding of `parse_uint32_strict` from validate.c. Rejects the empty
string, a leading sign or whitespace, any non-digit, and values above
`UINT32_MAX_VAL`; leading zeros are trimmed. (`strtoull` returns the exact
decimal value whenever it is at most `ULLONG_MAX`, and the `errno == ERANGE`
and `val > UINT32_MAX_VAL` branches together reject exactly the values above
`UINT32_MAX_VAL`, so the value test below is the same as the C pair of
tests.) The NULL-pointer guards have no counterpart here. -/
def parse_uint32_strict (s : List Char) : Option Nat :=
  match s with
  | [] => none
  | c :: _ =>
    if c = '-' then none
    else if c = '+' then none
    else if c_isspace c then none
    else
      let t := skip_leading_zeros s
      if t.all c_isdigit then
        if digits_to_nat t ≤ UINT32_MAX_VAL then some (digits_to_nat t)
        else none
      else none

/-- Case-insensitive string equality, modelling `strcasecmp(...) == 0`. -/
def str_case_eq (a b : List Char) : Bool :=
  a.map Char.toLower == b.map Char.toLower

/-- Embedding of `parse_bool` from validate.c: case-insensitive `yes`,
`true` and literal `1` parse to true; case-insensitive `no`, `false` and
literal `0` parse to false; anything else keeps `default_val`. -/
def parse_bool (s : List Char) (default_val : Bool) : Bool :=
  if str_case_eq s (("yes").data) then true
  else if str_case_eq s (("true").data) then true
  else if s = ("1").data then true
  else if str_case_eq s (("no").data) then false
  else if str_case_eq s (("false").data) then false
  else if s = ("0").data then false
  else default_val

/-- Embedding of `config_t` from `static-subid.h`: the primary-identifier
range, the two subordinate domains, the two policy flags, and the
configuration-key strings stored alongside them. -/
structure config_t where
  key_uid_min : List Char
  key_uid_max : List Char
  uid_min : Nat
  uid_max : Nat
  subuid : subid_config_t
  subgid : subid_config_t
  key_skip_if_exists : List Char
  key_allow_subid_wrap : List Char
  skip_if_exists : Bool
  allow_subid_wrap : Bool
deriving DecidableEq, Repr

/-- The default subordinate-GID domain installed by `config_factory`
(config.c lines 484-490). -/
def subgid_default : subid_config_t :=
  { type := subid_mode_t.SUBGID
    key_min := ("SUB_GID_MIN").data
    min_val := 100000
    key_max := ("SUB_GID_MAX").data
    max_val := 600100000
    key_count := ("SUB_GID_COUNT").data
    count_val := 65536 }

/-- Embedding of `config_factory` from config.c: the hardcoded shadow-utils
defaults populating every field of the configuration record. -/
def config_factory : config_t :=
  { key_uid_min := ("UID_MIN").data
    key_uid_max := ("UID_MAX").data
    uid_min := 1000
    uid_max := 60000
    subuid := subuid_default
    subgid := subgid_default
    key_skip_if_exists := ("SKIP_IF_EXISTS").data
    key_allow_subid_wrap := ("ALLOW_SUBID_WRAP").data
    skip_if_exists := true
    allow_subid_wrap := false }

/-- Modelled from the spec: the compile-time maximum range-count limit
`MAX_RANGES` is defined in the generated build header `autoconf.h`, which is
not under `src/`; `static-subid.h` only asserts `0 < MAX_RANGES ≤ 2^26`.
It is therefore kept abstract: every configuration-merge function below
takes it as the explicit parameter `maxRanges`. -/
def max_ranges_static_assert_bound : Nat := 67108864

/-- Embedding of `apply_config_value` from config.c: match the key against
the known configuration keys stored in the record and update the matching
field when the value parses; count keys are additionally bounded by
`maxRanges` (`MAX_RANGES`), and a rejected or unrecognized key leaves the
record unchanged. -/
def apply_config_value (maxRanges : Nat) (key value : List Char)
    (config : config_t) : config_t :=
  if key = config.key_uid_min then
    match parse_uint32_strict value with
    | some val => { config with uid_min := val }
    | none => config
  else if key = config.key_uid_max then
    match parse_uint32_strict value with
    | some val => { config with uid_max := val }
    | none => config
  else if key = config.subuid.key_min then
    match parse_uint32_strict value with
    | some val => { config with subuid := { config.subuid with min_val := val } }
    | none => config
  else if key = config.subuid.key_max then
    match parse_uint32_strict value with
    | some val => { config with subuid := { config.subuid with max_val := val } }
    | none => config
  else if key = config.subuid.key_count then
    match parse_uint32_strict value with
    | some val =>
      if val ≤ maxRanges then
        { config with subuid := { config.subuid with count_val := val } }
      else config
    | none => config
  else if key = config.subgid.key_min then
    match parse_uint32_strict value with
    | some val => { config with subgid := { config.subgid with min_val := val } }
    | none => config
  else if key = config.subgid.key_max then
    match parse_uint32_strict value with
    | some val => { config with subgid := { config.subgid with max_val := val } }
    | none => config
  else if key = config.subgid.key_count then
    match parse_uint32_strict value with
    | some val =>
      if val ≤ maxRanges then
        { config with subgid := { config.subgid with count_val := val } }
      else config
    | none => config
  else if key = config.key_skip_if_exists then
    { config with skip_if_exists := parse_bool value config.skip_if_exists }
  else if key = config.key_allow_subid_wrap then
    { config with allow_subid_wrap := parse_bool value config.allow_subid_wrap }
  else config

/-- Embedding of `normalize_config_line` from util.c: strip from the first
`'#'` on, trim trailing whitespace, then trim leading whitespace. -/
def normalize_config_line (line : List Char) : List Char :=
  let nc := line.takeWhile (fun c => !(c == '#'))
  let tr := (nc.reverse.dropWhile c_isspace).reverse
  tr.dropWhile c_isspace

/-- One iteration of the `parse_config_file` read loop (config.c lines
296-336): normalize the line, skip it when blank, split at the first run of
whitespace into `KEY` and `VALUE`, skip a key without a value, and apply
the pair. -/
def parse_config_line (maxRanges : Nat) (line : List Char)
    (config : config_t) : config_t :=
  let clean := normalize_config_line line
  if clean = [] then config
  else
    let key := clean.takeWhile (fun c => !(c_isspace c))
    match clean.dropWhile (fun c => !(c_isspace c)) with
    | [] => config
    | _ :: after =>
      let value := after.dropWhile c_isspace
      if value = [] then config
      else apply_config_value maxRanges key value config

/-- Embedding of the `parse_config_file` loop over the lines of an already
opened and security-validated file. The `safe_open_config` gate and `fgets`
are modelled at the operations seam: a file that is missing or fails the
security checks contributes no lines at all (see `config_sources`). -/
def parse_config_lines (maxRanges : Nat) (lines : List (List Char))
    (config : config_t) : config_t :=
  lines.foldl (fun c l => parse_config_line maxRanges l c) config

/-- Embedding of `filter_conf_files` from util.c: reject dotfiles and names
containing `'/'`, accept only names longer than 5 characters ending in
`.conf`. -/
def filter_conf_files (name : List Char) : Bool :=
  match name with
  | [] => false
  | c :: _ =>
    if c = '.' then false
    else if name.contains '/' then false
    else decide (5 < name.length) &&
      (name.drop (name.length - 5) == (".conf").data)

/-- Byte-wise lexicographic string order, modelling the C-locale `strcoll`
comparison used by `alphasort`. -/
def str_le : List Char → List Char → Bool
  | [], _ => true
  | _ :: _, [] => false
  | a :: as, b :: bs =>
    if a.toNat < b.toNat then true
    else if b.toNat < a.toNat then false
    else str_le as bs

/-- Insertion step of the stable sort modelling `scandir`'s `alphasort`
ordering of directory entries (name paired with file lines). -/
def insert_by_name (x : List Char × List (List Char)) :
    List (List Char × List (List Char)) →
    List (List Char × List (List Char))
  | [] => [x]
  | y :: ys => if str_le x.1 y.1 then x :: y :: ys else y :: insert_by_name x ys

/-- Sort directory entries by name, modelling `scandir(..., alphasort)`. -/
def sort_by_name (l : List (List Char × List (List Char))) :
    List (List Char × List (List Char)) :=
  l.foldr insert_by_name []

/-- Embedding of `load_config_from_dir` from config.c at the operations
seam: the entries of an already security-validated drop-in directory are
filtered by `filter_conf_files`, sorted alphabetically, and each surviving
entry is parsed after the defense-in-depth name checks (no `'/'`, no
leading `..`). -/
def load_config_from_dir (maxRanges : Nat)
    (entries : List (List Char × List (List Char)))
    (config : config_t) : config_t :=
  (sort_by_name (entries.filter (fun e => filter_conf_files e.1))).foldl
    (fun c e =>
      if e.1.contains '/' then c
      else if match e.1 with | '.' :: '.' :: _ => true | _ => false then c
      else parse_config_lines maxRanges e.2 c) config

/-- The configuration sources seen through the operations seam: the system
login-policy file (`/etc/login.defs`), the primary configuration file
(`CONFIG_FILE_PATH`) and the drop-in directory (`CONFIG_DROPIN_DIR_PATH`).
A source that does not exist or is discarded by the per-file security gate
of `safe_open_config` contributes `none` (respectively no entry); a present
source contributes its lines as read by `fgets`. -/
structure config_sources where
  login_defs : Option (List (List Char))
  main_config : Option (List (List Char))
  dropins : List (List Char × List (List Char))

/-- Embedding of `load_configuration` from config.c: populate the hardcoded
defaults via `config_factory`, then parse the login-policy file, the main
configuration file, and the drop-in directory, in that fixed order. -/
def load_configuration (maxRanges : Nat) (fs : config_sources) : config_t :=
  let c0 := config_factory
  let c1 := match fs.login_defs with
    | some ls => parse_config_lines maxRanges ls c0
    | none => c0
  let c2 := match fs.main_config with
    | some ls => parse_config_lines maxRanges ls c1
    | none => c1
  load_config_from_dir maxRanges fs.dropins c2

/-- Sources where the login-policy file, the main file and a drop-in all
set `UID_MIN`, and the main file also sets `UID_MAX`. -/
def fs_last_write_wins : config_sources :=
  { login_defs := some [("UID_MIN 900").data]
    main_config := some [("UID_MIN 2000").data, ("UID_MAX 50000").data]
    dropins := [((("a.conf").data), [("UID_MIN 500").data])] }

/-- Sources whose drop-in directory lists `b.conf` before `a.conf`; the
loader must nevertheless apply `a.conf` first and `b.conf` last. -/
def fs_dropin_order : config_sources :=
  { login_defs := none
    main_config := some [("UID_MIN 2000").data]
    dropins := [((("b.conf").data), [("UID_MIN 500").data]),
                ((("a.conf").data), [("UID_MIN 450").data])] }

/-- Claim C5: `load_configuration` merges defaults, the login-policy file,
the primary file and the lexicographically sorted drop-in files in that
order, applying each recognized key/value pair immediately, so later
sources override earlier ones key-by-key: `UID_MIN` set to 900 then 2000 is
finally overridden to 500 by the drop-in, while the main file's `UID_MAX`
and the untouched defaults survive; and a drop-in directory listed out of
order is still applied in lexicographic name order. -/
theorem load_configuration_merge_order :
    ∀ maxRanges : Nat,
      (load_configuration maxRanges fs_last_write_wins).uid_min = 500 ∧
      (load_configuration maxRanges fs_last_write_wins).uid_max = 50000 ∧
      (load_configuration maxRanges fs_last_write_wins).subuid.min_val =
        100000 ∧
      (load_configuration maxRanges fs_dropin_order).uid_min = 500 :=
  fun _ => ⟨rfl, rfl, rfl, rfl⟩

/-- Sources whose main file sets `SUB_UID_MIN` above the default
`SUB_UID_MAX` and sets `SUB_UID_COUNT` to zero. -/
def fs_invariant_break : config_sources :=
  { login_defs := none
    main_config := some [("SUB_UID_MIN 700000000").data,
                         ("SUB_UID_COUNT 0").data]
    dropins := [] }

/-- Counterexample to claim C2 as stated: merging a source that sets
`SUB_UID_MIN 700000000` and `SUB_UID_COUNT 0` leaves the subordinate-UID
domain with `min_val > max_val` and `count_val = 0` — `apply_config_value`
enforces neither invariant (the result is independent of the `MAX_RANGES`
parameter, instantiated here at its static-assert bound, since the merge
only checks `count ≤ MAX_RANGES` and `0` always passes). -/
theorem load_configuration_invariant_cex :
    ¬ ((load_configuration max_ranges_static_assert_bound
          fs_invariant_break).subuid.min_val ≤
        (load_configuration max_ranges_static_assert_bound
          fs_invariant_break).subuid.max_val) ∧
    (load_configuration max_ranges_static_assert_bound
        fs_invariant_break).subuid.count_val = 0 := by
  decide

/-- Claim C2 (amended): the hardcoded defaults populated by
`config_factory` satisfy the data-model invariants (`min_val ≤ max_val`,
`count_val > 0` for both subordinate domains), and `load_configuration`
installs them before reading any source, so every field always has a
defined value; but the merge itself does not preserve `min_val ≤ max_val`
or `count_val > 0` — a configuration source may break them. -/
theorem config_factory_defaults_invariants :
    config_factory.subuid.min_val ≤ config_factory.subuid.max_val ∧
    config_factory.subgid.min_val ≤ config_factory.subgid.max_val ∧
    0 < config_factory.subuid.count_val ∧
    0 < config_factory.subgid.count_val ∧
    ∀ maxRanges : Nat,
      load_configuration maxRanges
        { login_defs := none, main_config := none, dropins := [] } =
        config_factory :=
  ⟨by decide, by decide, by decide, by decide, fun _ => rfl⟩

/-- A list whose elements all satisfy `p` is kept whole by `takeWhile p`,
and appending continues the scan in the second list. -/
theorem takeWhile_append_all {p : Char → Bool} :
    ∀ l1 l2 : List Char, l1.all p = true →
      (l1 ++ l2).takeWhile p = l1 ++ l2.takeWhile p := by
  intro l1
  induction l1 with
  | nil => intro l2 _; rfl
  | cons a t ih =>
    intro l2 h
    rw [List.all_cons, Bool.and_eq_true] at h
    simp [List.takeWhile_cons, h.1, ih l2 h.2]

/-- A list whose elements all satisfy `p` is dropped whole by
`dropWhile p`, and the scan continues in the second list. -/
theorem dropWhile_append_all {p : Char → Bool} :
    ∀ l1 l2 : List Char, l1.all p = true →
      (l1 ++ l2).dropWhile p = l2.dropWhile p := by
  intro l1
  induction l1 with
  | nil => intro l2 _; rfl
  | cons a t ih =>
    intro l2 h
    rw [List.all_cons, Bool.and_eq_true] at h
    simp [List.dropWhile_cons, h.1, ih l2 h.2]

/-- `takeWhile p` is the identity on a list all of whose elements satisfy
`p`. -/
theorem takeWhile_eq_self_all {p : Char → Bool} (l : List Char)
    (h : l.all p = true) : l.takeWhile p = l := by
  have := takeWhile_append_all l [] h
  simpa using this

/-- Transport `List.all` along a pointwise implication. -/
theorem all_of_all_imp {p q : Char → Bool}
    (h : ∀ x, p x = true → q x = true) :
    ∀ l : List Char, l.all p = true → l.all q = true := by
  intro l hl
  rw [List.all_eq_true] at *
  exact fun x hx => h x (hl x hx)

/-- A digit character code is not a whitespace character code. -/
theorem c_isdigit_not_space {c : Char} (h : c_isdigit c = true) :
    c_isspace c = false := by
  simp only [c_isdigit, Bool.and_eq_true, decide_eq_true_eq] at h
  simp only [c_isspace, Bool.or_eq_false_iff, decide_eq_false_iff_not]
  omega

/-- A digit character is not the comment character `'#'`. -/
theorem c_isdigit_ne_hash {c : Char} (h : c_isdigit c = true) :
    (c == '#') = false := by
  simp only [beq_eq_false_iff_ne]
  intro hEq
  subst hEq
  exact absurd h (by decide)

/-- `skip_leading_zeros` only removes `'0'` characters, so if its result is
all digits then so was its argument. -/
theorem skip_leading_zeros_all :
    ∀ l : List Char, (skip_leading_zeros l).all c_isdigit = true →
      l.all c_isdigit = true := by
  intro l
  induction l with
  | nil => intro h; exact h
  | cons c1 t ih =>
    cases t with
    | nil => intro h; exact h
    | cons c2 rest =>
      intro h
      have hsk : skip_leading_zeros (c1 :: c2 :: rest) =
          if c1 = '0' then skip_leading_zeros (c2 :: rest)
          else c1 :: c2 :: rest := rfl
      rw [hsk] at h
      by_cases h0 : c1 = '0'
      · rw [if_pos h0] at h
        subst h0
        rw [List.all_cons, Bool.and_eq_true]
        exact ⟨by decide, ih h⟩
      · rw [if_neg h0] at h
        exact h

/-- A successful `parse_uint32_strict` implies the input was a nonempty
digit string. -/
theorem parse_uint32_strict_some_digits {v : List Char} {n : Nat}
    (h : parse_uint32_strict v = some n) :
    v ≠ [] ∧ v.all c_isdigit = true := by
  cases v with
  | nil => simp [parse_uint32_strict] at h
  | cons c t =>
    refine ⟨by simp, ?_⟩
    simp only [parse_uint32_strict] at h
    split_ifs at h with h1 h2 h3 h4 h5
    all_goals exact skip_leading_zeros_all _ h4

/-- A configuration line setting `SUB_UID_COUNT` to the raw value string
`v`. -/
def sub_uid_count_line (v : List Char) : List Char :=
  ("SUB_UID_COUNT ").data ++ v

/-- Splitting a `SUB_UID_COUNT <digits>` line recovers exactly the
`SUB_UID_COUNT` key and the digit string as value, so processing the line
is processing that key/value pair. -/
theorem parse_config_line_sub_uid_count (maxRanges : Nat) (v : List Char)
    (hv : v ≠ []) (hd : v.all c_isdigit = true) (c : config_t) :
    parse_config_line maxRanges (sub_uid_count_line v) c =
      apply_config_value maxRanges (("SUB_UID_COUNT").data) v c := by
  obtain ⟨a, t, hrev⟩ : ∃ a t, v.reverse = a :: t := by
    cases hr : v.reverse with
    | nil => exact absurd (List.reverse_eq_nil_iff.mp hr) hv
    | cons a t => exact ⟨a, t, rfl⟩
  have ha : a ∈ v := List.mem_reverse.mp (hrev ▸ List.mem_cons_self a t)
  have hadig : c_isdigit a = true := List.all_eq_true.mp hd a ha
  obtain ⟨d, u, rfl⟩ : ∃ d u, v = d :: u := by
    cases v with
    | nil => exact absurd rfl hv
    | cons d u => exact ⟨d, u, rfl⟩
  have hddig : c_isdigit d = true := by
    rw [List.all_cons, Bool.and_eq_true] at hd
    exact hd.1
  have hnohash : (sub_uid_count_line (d :: u)).all
      (fun ch => !(ch == '#')) = true := by
    rw [show sub_uid_count_line (d :: u) =
      ("SUB_UID_COUNT ").data ++ (d :: u) from rfl, List.all_append,
      Bool.and_eq_true]
    refine ⟨by decide, ?_⟩
    exact all_of_all_imp
      (fun x hx => by rw [Bool.not_eq_true', c_isdigit_ne_hash hx]) _ hd
  have h1 : (sub_uid_count_line (d :: u)).takeWhile
      (fun ch => !(ch == '#')) = sub_uid_count_line (d :: u) :=
    takeWhile_eq_self_all _ hnohash
  have hrv : (sub_uid_count_line (d :: u)).reverse =
      a :: (t ++ ("SUB_UID_COUNT ").data.reverse) := by
    rw [show sub_uid_count_line (d :: u) =
      ("SUB_UID_COUNT ").data ++ (d :: u) from rfl, List.reverse_append,
      hrev, List.cons_append]
  have h2 : (sub_uid_count_line (d :: u)).reverse.dropWhile c_isspace =
      (sub_uid_count_line (d :: u)).reverse := by
    rw [hrv]
    simp [List.dropWhile_cons, c_isdigit_not_space hadig]
  have h3 : (sub_uid_count_line (d :: u)).dropWhile c_isspace =
      sub_uid_count_line (d :: u) := by
    rw [show sub_uid_count_line (d :: u) =
      'S' :: (("UB_UID_COUNT ").data ++ (d :: u)) from rfl]
    simp +decide [List.dropWhile_cons]
  have hnorm : normalize_config_line (sub_uid_count_line (d :: u)) =
      sub_uid_count_line (d :: u) := by
    simp only [normalize_config_line]
    rw [h1, h2, List.reverse_reverse, h3]
  have hkey : (sub_uid_count_line (d :: u)).takeWhile
      (fun ch => !(c_isspace ch)) = ("SUB_UID_COUNT").data := by
    rw [show sub_uid_count_line (d :: u) =
      ("SUB_UID_COUNT").data ++ (' ' :: d :: u) from rfl,
      takeWhile_append_all _ _ (by decide)]
    simp +decide [List.takeWhile_cons]
  have hrest : (sub_uid_count_line (d :: u)).dropWhile
      (fun ch => !(c_isspace ch)) = ' ' :: d :: u := by
    rw [show sub_uid_count_line (d :: u) =
      ("SUB_UID_COUNT").data ++ (' ' :: d :: u) from rfl,
      dropWhile_append_all _ _ (by decide)]
    simp +decide [List.dropWhile_cons]
  have hval : (d :: u).dropWhile c_isspace = d :: u := by
    simp [List.dropWhile_cons, c_isdigit_not_space hddig]
  simp only [parse_config_line, hnorm, hkey, hrest, hval]
  rw [if_neg (by simp [sub_uid_count_line]), if_neg (by simp)]

/-- The configuration record carries the factory key strings (as every
record produced by `config_factory` and mutated by the merge does). -/
def has_factory_keys (c : config_t) : Prop :=
  c.key_uid_min = ("UID_MIN").data ∧
  c.key_uid_max = ("UID_MAX").data ∧
  c.subuid.key_min = ("SUB_UID_MIN").data ∧
  c.subuid.key_max = ("SUB_UID_MAX").data ∧
  c.subuid.key_count = ("SUB_UID_COUNT").data ∧
  c.subgid.key_min = ("SUB_GID_MIN").data ∧
  c.subgid.key_max = ("SUB_GID_MAX").data ∧
  c.subgid.key_count = ("SUB_GID_COUNT").data ∧
  c.key_skip_if_exists = ("SKIP_IF_EXISTS").data ∧
  c.key_allow_subid_wrap = ("ALLOW_SUBID_WRAP").data

/-- Claim C8: a `SUB_UID_COUNT` value that parses to a number exceeding the
compile-time limit `MAX_RANGES` (here the abstract `maxRanges`) is rejected
per-key — the record, in particular the previous `count_val`, is left
unchanged — and the remaining lines of the same file are processed exactly
as if the rejected line were absent, so every other recognized key still
takes effect; moreover any value rejected by the strict integer parser also
leaves the record untouched (shown for a count key and a min key). -/
theorem apply_config_count_limit_rejection
    (maxRanges : Nat) (c : config_t) (hk : has_factory_keys c)
    (v : List Char) (n : Nat)
    (hp : parse_uint32_strict v = some n) (hn : maxRanges < n)
    (ls : List (List Char)) :
    apply_config_value maxRanges (("SUB_UID_COUNT").data) v c = c ∧
    parse_config_lines maxRanges (sub_uid_count_line v :: ls) c =
      parse_config_lines maxRanges ls c ∧
    (∀ w : List Char, parse_uint32_strict w = none →
      apply_config_value maxRanges (("SUB_UID_COUNT").data) w c = c ∧
      apply_config_value maxRanges (("UID_MIN").data) w c = c) := by
  obtain ⟨k1, k2, k3, k4, k5, k6, k7, k8, k9, k10⟩ := hk
  have hrej : apply_config_value maxRanges (("SUB_UID_COUNT").data) v c =
      c := by
    simp +decide [apply_config_value, k1, k2, k3, k4, k5, hp]
    intro hle
    omega
  refine ⟨hrej, ?_, ?_⟩
  · obtain ⟨hv, hd⟩ := parse_uint32_strict_some_digits hp
    simp only [parse_config_lines, List.foldl_cons]
    rw [parse_config_line_sub_uid_count maxRanges v hv hd c, hrej]
  · intro w hw
    constructor
    · simp +decide [apply_config_value, k1, k2, k3, k4, k5, hw]
    · simp +decide [apply_config_value, k1, hw]

/-- Witness for C8 at `maxRanges = 65536`: the default configuration
processing a file whose first line sets `SUB_UID_COUNT 65537` behaves
exactly like the same file without that line. -/
theorem apply_config_count_limit_rejection_witness :
    parse_config_lines 65536
        (sub_uid_count_line (("65537").data) :: [("UID_MIN 500").data])
        config_factory =
      parse_config_lines 65536 [("UID_MIN 500").data] config_factory :=
  (apply_config_count_limit_rejection 65536 config_factory
    ⟨rfl, rfl, rfl, rfl, rfl, rfl, rfl, rfl, rfl, rfl⟩
    (("65537").data) 65537 (by decide) (by decide)
    [("UID_MIN 500").data]).2.1

/-- Wait status of a spawned child as decoded by
`WIFEXITED`/`WEXITSTATUS`/`WTERMSIG`: a normal exit with a code, or an
abnormal (signal) termination. -/
inductive proc_status where
  | exited (code : Nat)
  | signaled (sig : Nat)
deriving DecidableEq, Repr

/-- What a spawned query command produces as observed by the parent: the
wait status, and whatever text the child wrote (redirected to `/dev/null`
by the spawn file actions and never read back by the parent). -/
structure spawn_result where
  status : proc_status
  output : List Char
deriving DecidableEq, Repr

/-- The exit-status classification at the end of `check_subid_exists`
(subid.c lines 222-248): abnormal termination is an error (`-1`), exit code
0 means ranges exist (`1`), exit code 1 means ranges absent (`0`), any
other exit code is an error (`-1`). -/
def check_subid_exists_status (st : proc_status) : Int :=
  match st with
  | .signaled _ => -1
  | .exited code => if code = 0 then 1 else if code = 1 then 0 else -1

/-- The outcome of `check_subid_exists` for a spawned `getsubids` run,
computed from the wait status alone — the child's output field is not
consulted anywhere. -/
def check_subid_exists_outcome (r : spawn_result) : Int :=
  check_subid_exists_status r.status

/-- Claim C6: `check_subid_exists` classifies the spawned query command's
outcome solely by exit status: result `1` (ranges exist) exactly for a
normal exit with code 0, result `0` (ranges absent) exactly for a normal
exit with code 1, and `-1` (error) exactly otherwise — any other exit code
or abnormal termination; two runs with the same wait status classify
identically regardless of the command's textual output. -/
theorem check_subid_exists_tristate :
    (∀ st : proc_status,
      (check_subid_exists_status st = 1 ↔ st = proc_status.exited 0) ∧
      (check_subid_exists_status st = 0 ↔ st = proc_status.exited 1) ∧
      (check_subid_exists_status st = -1 ↔
        st ≠ proc_status.exited 0 ∧ st ≠ proc_status.exited 1)) ∧
    (∀ r r' : spawn_result, r.status = r'.status →
      check_subid_exists_outcome r = check_subid_exists_outcome r') := by
  constructor
  · intro st
    cases st with
    | signaled s =>
      refine ⟨by simp [check_subid_exists_status], ?_, ?_⟩ <;>
        simp [check_subid_exists_status]
    | exited code =>
      simp only [check_subid_exists_status]
      split_ifs with h0 h1 <;>
        constructor <;> constructor <;> simp_all
  · intro r r' h
    simp [check_subid_exists_outcome, h]

/-- Witness for C6: a clean exit 0 classifies as "ranges exist", and the
classification of two exit-0 runs with different textual output agrees. -/
theorem check_subid_exists_tristate_witness :
    check_subid_exists_status (proc_status.exited 0) = 1 ∧
    check_subid_exists_outcome
        ⟨proc_status.exited 0, ("some ranges").data⟩ =
      check_subid_exists_outcome ⟨proc_status.exited 0, []⟩ :=
  ⟨(check_subid_exists_tristate.1 (proc_status.exited 0)).1.mpr rfl,
    check_subid_exists_tristate.2 ⟨proc_status.exited 0, ("some ranges").data⟩
      ⟨proc_status.exited 0, []⟩ rfl⟩

/-- The environment-entry test of `build_safe_environ` (subid.c line 69):
`strncmp(e, k, klen) == 0 && e[klen] == '='`, i.e. `e` begins with the key
`k` immediately followed by `'='`. -/
def is_env_binding (k e : List Char) : Bool :=
  e.take (k.length + 1) == k ++ ['=']

/-- C `getenv` semantics over a modelled `environ`: the first `KEY=VALUE`
entry for the key. -/
def c_getenv (env : List (List Char)) (k : List Char) :
    Option (List Char) :=
  env.find? (fun e => is_env_binding k e)

/-- The allow-list of `build_safe_environ` (subid.c lines 44-45). -/
def allowed_env_keys : List (List Char) :=
  [("LANG").data, ("LC_ALL").data, ("LC_MESSAGES").data,
   ("LC_CTYPE").data, ("TZ").data]

/-- Embedding of `build_safe_environ` from subid.c: for each allow-listed
key present in the ambient environment (per `getenv`), the first matching
`KEY=VALUE` entry of `environ` is placed in the child environment array;
nothing else is. (The C function first counts the `getenv` hits, then walks
`environ` for each hit; both scans select exactly the first binding of the
key, which is what `List.find?` returns.) -/
def build_safe_environ (env : List (List Char)) : List (List Char) :=
  allowed_env_keys.filterMap (fun k => c_getenv env k)

/-- Claim C7: the child environment contains exactly the allow-listed
variables present in the caller's environment — every `getenv`-visible
binding of an allow-listed key is passed through, everything passed through
is an entry of the caller's environment binding an allow-listed key, and no
entry is ever a binding of the dynamic-linker injection variable
`LD_PRELOAD`, however the caller's environment is populated. -/
theorem build_safe_environ_allowlist (env : List (List Char)) :
    (∀ k, k ∈ allowed_env_keys → ∀ e, c_getenv env k = some e →
      e ∈ build_safe_environ env) ∧
    (∀ e, e ∈ build_safe_environ env →
      e ∈ env ∧ ∃ k, k ∈ allowed_env_keys ∧ is_env_binding k e = true) ∧
    (∀ e, e ∈ build_safe_environ env →
      is_env_binding (("LD_PRELOAD").data) e = false) := by
  refine ⟨?_, ?_, ?_⟩
  · intro k hk e he
    exact List.mem_filterMap.mpr ⟨k, hk, he⟩
  · intro e he
    obtain ⟨k, hk, hfind⟩ := List.mem_filterMap.mp he
    exact ⟨List.mem_of_find?_eq_some hfind, k, hk, List.find?_some hfind⟩
  · intro e he
    obtain ⟨k, hk, hfind⟩ := List.mem_filterMap.mp he
    have hb : is_env_binding k e = true := List.find?_some hfind
    by_contra hld
    rw [Bool.not_eq_false, is_env_binding, beq_iff_eq] at hld
    rw [is_env_binding, beq_iff_eq] at hb
    have hld11 : e.take 11 = ("LD_PRELOAD=").data := hld
    fin_cases hk
    · have hb' : e.take 5 = ("LANG=").data := hb
      have h2 : e.take 5 = (e.take 11).take 5 := by
        rw [List.take_take]
        norm_num
      rw [hld11, hb'] at h2
      exact absurd h2 (by decide)
    · have hb' : e.take 7 = ("LC_ALL=").data := hb
      have h2 : e.take 7 = (e.take 11).take 7 := by
        rw [List.take_take]
        norm_num
      rw [hld11, hb'] at h2
      exact absurd h2 (by decide)
    · have hb' : e.take 12 = ("LC_MESSAGES=").data := hb
      have h2 : e.take 11 = (e.take 12).take 11 := by
        rw [List.take_take]
        norm_num
      rw [hld11, hb'] at h2
      exact absurd h2 (by decide)
    · have hb' : e.take 9 = ("LC_CTYPE=").data := hb
      have h2 : e.take 9 = (e.take 11).take 9 := by
        rw [List.take_take]
        norm_num
      rw [hld11, hb'] at h2
      exact absurd h2 (by decide)
    · have hb' : e.take 3 = ("TZ=").data := hb
      have h2 : e.take 3 = (e.take 11).take 3 := by
        rw [List.take_take]
        norm_num
      rw [hld11, hb'] at h2
      exact absurd h2 (by decide)

/-- A demonstration environment holding an allow-listed locale variable
next to a dynamic-linker injection variable. -/
def env_demo : List (List Char) :=
  [("LD_PRELOAD=/tmp/evil.so").data, ("LANG=C.UTF-8").data]

/-- Witness for C7: in `env_demo` the `LANG` binding is passed to the
child, and that passed entry is not an `LD_PRELOAD` binding. -/
theorem build_safe_environ_allowlist_witness :
    ("LANG=C.UTF-8").data ∈ build_safe_environ env_demo ∧
    is_env_binding (("LD_PRELOAD").data) (("LANG=C.UTF-8").data) = false :=
  ⟨(build_safe_environ_allowlist env_demo).1 (("LANG").data) (by decide)
      (("LANG=C.UTF-8").data) (by decide),
    (build_safe_environ_allowlist env_demo).2.2 (("LANG=C.UTF-8").data)
      ((build_safe_environ_allowlist env_demo).1 (("LANG").data) (by decide)
        (("LANG=C.UTF-8").data) (by decide))⟩

end StaticSubid
